import Mathlib

/-!
Shallow embedding of the webpath repository (src/webpath/webpath.py and
src/webpath/server.py): a pathlib-like remote path handle (`WebPath`), the
tree snapshot type (`TreeList`) with its diff/mod comparison operators, the
recursive walk, the synchronization operations (put, put tree, put_r,
put_diff, rm tree, rm_r) modelled as action traces, and the text/binary
stream adapter (`FileHandler`).

Python dynamic semantics that the source relies on are modelled explicitly:
exceptions as an error type threaded through `Except`, lazy `filter` objects
as a tagged sequence type (`PySeq`) on which `reversed` raises `TypeError`,
truthiness of a bound-method attribute access, the `NameError` raised by the
unbound module-level name `Path` in webpath.py, and truncation of float
timestamps by `int()`.
-/

set_option maxRecDepth 4000

/-- Python exception kinds relevant to this code base. The first three are
`OSError` (alias `IOError`) subclasses; the rest are not `IOError`s. -/
inductive PyErr where
  | fileNotFound
  | permissionDenied
  | otherIOError
  | typeError
  | attributeError
  | valueError
  | lookupError
  | unicodeDecodeError
  | nameError
deriving DecidableEq, Repr

/-- Whether an exception kind is an `IOError` (`OSError`), i.e. would be
caught by an `except IOError` clause. -/
def PyErr.isIOError : PyErr → Bool
  | .fileNotFound | .permissionDenied | .otherIOError => true
  | _ => false

/-- Stat metadata as returned by `os.stat` and by the remote stat primitive.
Timestamps are rationals: floats on the local system, integral values on the
remote side (see the comment in `TreeList._key`). -/
structure SFTPAttributes where
  st_mode : Nat
  st_size : Nat
  st_atime : ℚ
  st_mtime : ℚ
deriving DecidableEq, Repr

/-- Python `int()` on a float: truncation toward zero.  On a rational in
lowest terms with positive denominator this is truncating integer
division of the numerator by the denominator. -/
def pyInt (q : ℚ) : Int := q.num.tdiv (q.den : Int)

/-- stat.S_ISDIR: the file-type bits (0o170000 = 61440) equal 0o040000 = 16384. -/
def S_ISDIR (m : Nat) : Bool := m &&& 61440 == 16384

/-- stat.S_ISREG: the file-type bits equal 0o100000 = 32768. -/
def S_ISREG (m : Nat) : Bool := m &&& 61440 == 32768

/-- A path is a list of components (pathlib `parts`). -/
abbrev PathSegs := List String

/-- `PurePath.as_posix()`: components joined by slashes; the empty path
(pathlib `Path(".")`, whose `parts` is empty) prints as a dot. -/
def posixOf (segs : PathSegs) : String :=
  if segs.isEmpty then (".") else String.intercalate ("/") segs

/-- Split a character list at every occurrence of the separator. -/
def splitOnChar (c : Char) : List Char → List (List Char)
  | [] => [[]]
  | x :: xs =>
    let r := splitOnChar c xs
    if x = c then [] :: r
    else
      match r with
      | [] => [[x]]
      | g :: gs => (x :: g) :: gs

/-- Inverse of `posixOf` for the strings this code builds: `Path(s).parts`. -/
def pathSegs (s : String) : PathSegs :=
  if s = (".") then [] else (splitOnChar '/' s.data).map String.mk

/-- The remote backend as seen through a path handle: the stat primitive of
the sftp session (`self._accessor.stat`).  Failures are Python exceptions. -/
structure Accessor where
  statFn : String → Except PyErr SFTPAttributes

/-- webpath.WebPath: a path, a reference to the accessor (sftp handler), and
an optional cached stat (`self._stat`). -/
structure WebPath where
  path : PathSegs
  accessor : Accessor
  cachedStat : Option SFTPAttributes

/-- WebPath.as_posix. -/
def WebPath.as_posix (p : WebPath) : String := posixOf p.path

/-- WebPath.stat: return the cached stat if present, otherwise fetch through
the accessor (and cache it; the cache-fill mutation is invisible to later
reads modelled here, so the returned value is what matters). -/
def WebPath.stat (p : WebPath) : Except PyErr SFTPAttributes :=
  match p.cachedStat with
  | some s => .ok s
  | none => p.accessor.statFn p.as_posix

/-- WebPath.is_dir: `S_ISDIR(self._mode)` guarded by
`except FileNotFoundError: return False`.  Only the not-found error is
swallowed; every other exception propagates. -/
def WebPath.is_dir (p : WebPath) : Except PyErr Bool :=
  match p.stat with
  | .ok a => .ok (S_ISDIR a.st_mode)
  | .error .fileNotFound => .ok false
  | .error e => .error e

/-- WebPath.is_file: `S_ISREG(self._mode)` with the same guard. -/
def WebPath.is_file (p : WebPath) : Except PyErr Bool :=
  match p.stat with
  | .ok a => .ok (S_ISREG a.st_mode)
  | .error .fileNotFound => .ok false
  | .error e => .error e

/-- WebPath.relative_to builds
`self.__class__(self._path.relative_to(ancestor), self._system)`.
The argument `self._path.relative_to(ancestor)` is evaluated first and
raises `ValueError` when `ancestor` is not a prefix of the path; when it
succeeds, the attribute access `self._system` raises `AttributeError`,
because `WebPath` defines no attribute named `_system` (only `_path`,
`_accessor`, `_stat`).  Hence this method never returns normally. -/
def WebPath.relative_to (p : WebPath) (ancestor : PathSegs) : Except PyErr PathSegs :=
  if ancestor.isPrefixOf p.path then .error .attributeError else .error .valueError

/-- WebPath.__truediv__: a child handle with the same accessor and no cached
stat (the constructor default). -/
def WebPath.child (p : WebPath) (other : String) : WebPath :=
  { path := p.path ++ [other], accessor := p.accessor, cachedStat := none }

/-- WebPath._reset_stat: clear the cached stat. -/
def WebPath.reset_stat (p : WebPath) : WebPath :=
  { p with cachedStat := none }

/-- A local pathlib.Path as produced by `Path(...).rglob("*")`, together
with the local filesystem metadata its queries observe (the backend is
sequential, so the metadata is stable during one operation). -/
structure LocalPath where
  segs : PathSegs
  attrs : SFTPAttributes
deriving DecidableEq, Repr

/-- pathlib relative_to: drop the ancestor prefix, `ValueError` otherwise. -/
def LocalPath.relative_to (p : LocalPath) (ancestor : PathSegs) : Except PyErr PathSegs :=
  if ancestor.isPrefixOf p.segs then .ok (p.segs.drop ancestor.length) else .error .valueError

/-- The interface shared by the element types that can sit inside a tree
snapshot at runtime: remote handles (`WebPath`), local paths (`LocalPath`)
and — through the bug in `diff`/`mod` — plain booleans, on which every
path-like attribute access raises `AttributeError`. -/
class PyPathLike (α : Type) where
  isDirCall : α → Except PyErr Bool
  isFileCall : α → Except PyErr Bool
  isDirAttrTruthy : α → Except PyErr Bool
  statCall : α → Except PyErr SFTPAttributes
  relativeTo : α → PathSegs → Except PyErr PathSegs
  asPosix : α → String

instance : PyPathLike WebPath where
  isDirCall := WebPath.is_dir
  isFileCall := WebPath.is_file
  isDirAttrTruthy _ := .ok true
  statCall := WebPath.stat
  relativeTo := WebPath.relative_to
  asPosix := WebPath.as_posix

instance : PyPathLike LocalPath where
  isDirCall p := .ok (S_ISDIR p.attrs.st_mode)
  isFileCall p := .ok (S_ISREG p.attrs.st_mode)
  isDirAttrTruthy _ := .ok true
  statCall p := .ok p.attrs
  relativeTo := LocalPath.relative_to
  asPosix p := posixOf p.segs

instance : PyPathLike Bool where
  isDirCall _ := .error .attributeError
  isFileCall _ := .error .attributeError
  isDirAttrTruthy _ := .error .attributeError
  statCall _ := .error .attributeError
  relativeTo _ _ := .error .attributeError
  asPosix _ := ("")

/-- A Python sequence value as it flows through this code: either a real
list or a lazy `filter` object (predicate plus underlying list, with the
predicate not yet applied). -/
inductive PySeq (α : Type) where
  | list : List α → PySeq α
  | filterObj : (α → Except PyErr Bool) → List α → PySeq α

/-- Exhaust a possibly-failing filter predicate over a list (what iterating
a `filter` object to completion does, stopping at the first exception). -/
def exceptFilter (pred : α → Except PyErr Bool) : List α → Except PyErr (List α)
  | [] => .ok []
  | x :: xs => do
    let b ← pred x
    let rest ← exceptFilter pred xs
    pure (if b then x :: rest else rest)

/-- Iterating a `PySeq` to completion. -/
def PySeq.toListE : PySeq α → Except PyErr (List α)
  | .list xs => .ok xs
  | .filterObj p xs => exceptFilter p xs

/-- Python `reversed`: needs a sequence (`__reversed__` or
`__len__`/`__getitem__`).  A `filter` object is an iterator, not a
sequence, so `reversed` on it raises `TypeError`. -/
def pyReversed : PySeq α → Except PyErr (List α)
  | .list xs => .ok xs.reverse
  | .filterObj _ _ => .error .typeError

/-- server.TreeList: a named tuple of a root path and the ordered sequence
of entries captured under it.  The element type is whatever the sequence
holds at runtime (path handles after a walk, booleans after `diff`/`mod`). -/
structure TreeList (α : Type) where
  root : PathSegs
  paths : List α
deriving DecidableEq, Repr

/-- TreeList.directories: `filter(lambda p: p.is_dir(), self.paths)` — a
lazy filter object. -/
def TreeList.directories [PyPathLike α] (t : TreeList α) : PySeq α :=
  .filterObj PyPathLike.isDirCall t.paths

/-- TreeList.files: `filter(lambda p: p.is_file(), self.paths)`. -/
def TreeList.files [PyPathLike α] (t : TreeList α) : PySeq α :=
  .filterObj PyPathLike.isFileCall t.paths

/-- TreeList.unknowns: `filter(lambda p: not (p.is_dir or p.is_file()), ...)`.
The first operand `p.is_dir` is an attribute access with no call: it
evaluates to the bound method object.  When that access succeeds the object
is truthy, `or` short-circuits, `p.is_file()` is never called, and the
predicate yields `not truthy = False`. -/
def TreeList.unknowns [PyPathLike α] (t : TreeList α) : PySeq α :=
  .filterObj
    (fun p => do
      let d ← PyPathLike.isDirAttrTruthy p
      if d then pure false
      else do
        let f ← PyPathLike.isFileCall p
        pure (!f))
    t.paths

/-- TreeList._rel: `path.relative_to(self.root).as_posix()`. -/
def TreeList.rel [PyPathLike α] (t : TreeList α) (p : α) : Except PyErr String :=
  (PyPathLike.relativeTo p t.root).map posixOf

/-- TreeList._key: stat the path first, then pair the posix relative path
with `int(stat.st_mtime)` (truncation reconciles local float timestamps
with integral remote ones). -/
def TreeList.key [PyPathLike α] (t : TreeList α) (p : α) : Except PyErr (String × Int) := do
  let stat ← PyPathLike.statCall p
  let rel ← PyPathLike.relativeTo p t.root
  pure (posixOf rel, pyInt stat.st_mtime)

/-- TreeList.diff: the source builds `set(map(other._rel, other.paths))` and
then returns `self.__class__(self.root, list(map(lambda p: self._rel(p) not
in paths, self.paths)))`.  Note the `map` where a `filter` was evidently
intended: the resulting tree holds the boolean membership-test results, not
the kept path handles. -/
def TreeList.diff [PyPathLike α] [PyPathLike β] (self : TreeList α) (other : TreeList β) :
    Except PyErr (TreeList Bool) := do
  let paths ← other.paths.mapM other.rel
  let bs ← self.paths.mapM (fun p => do
    let r ← self.rel p
    pure (!(paths.contains r)))
  pure ⟨self.root, bs⟩

/-- TreeList.mod: same shape as `diff`, keyed by `_key` — and with the same
`map`-instead-of-`filter` slip. -/
def TreeList.mod [PyPathLike α] [PyPathLike β] (self : TreeList α) (other : TreeList β) :
    Except PyErr (TreeList Bool) := do
  let paths ← other.paths.mapM other.key
  let bs ← self.paths.mapM (fun p => do
    let k ← self.key p
    pure (!(paths.contains k)))
  pure ⟨self.root, bs⟩

mutual
/-- A point-in-time view of a remote subtree as the flat-listing primitive
reveals it: each node carries the name and attributes that
`listdir_attr` reports, plus the entries of its own listing (meaningful
when the node is a directory). -/
inductive FSTree where
  | node (name : String) (attrs : SFTPAttributes) (children : FSForest)
/-- The entries of one flat listing, in listing order. -/
inductive FSForest where
  | nil
  | cons (t : FSTree) (ts : FSForest)
end

/-- The trees of a listing as a plain list. -/
def FSForest.toList : FSForest → List FSTree
  | .nil => []
  | .cons t ts => t :: FSForest.toList ts

/-- WebPath.from_attr executes `cls(Path(parent) / stat.filename, accessor,
stat)`.  The bare name `Path` is resolved in the module globals of
webpath.py, which imports only `logging`, `io`, parts of `paramiko` and two
`stat` helpers — `pathlib.Path` is never imported there (server.py imports
it into its own, separate namespace), so this lookup raises `NameError` on
every call. -/
def fromAttr (_acc : Accessor) (_path : PathSegs) (_t : FSTree) : Except PyErr WebPath :=
  .error .nameError

mutual
/-- One iteration of the loop of `SFTPHandler._walk`: build the handle with
`self._Path.from_attr(path, self, attr)` — which raises `NameError`, see
`fromAttr` — then yield it, and when recursion is on and the handle
classifies as a directory, splice in the walk of that entry, whose first
step is one `listdir_attr` call on it (recorded in the middle component).
Returns the yielded handles, the listed paths, and the exception that
aborted the iteration, if any. -/
def walkEntry (acc : Accessor) (recurse : Bool) (path : PathSegs) :
    FSTree → (List WebPath × List String) × Option PyErr
  | t@(FSTree.node name _attrs children) =>
    match fromAttr acc path t with
    | .error e => (([], []), some e)
    | .ok node =>
      if recurse then
        match node.is_dir with
        | .error e => (([node], []), some e)
        | .ok true =>
          let np := path ++ [name]
          let s := walkAux acc recurse np children
          ((node :: s.1.1, posixOf np :: s.1.2), s.2)
        | .ok false => (([node], []), none)
      else (([node], []), none)
/-- The loop of `SFTPHandler._walk` over the entries of one listing,
stopping at the first exception.  The listed paths exclude the initial
listing of the root (added by `walkDir`). -/
def walkAux (acc : Accessor) (recurse : Bool) (path : PathSegs) :
    FSForest → (List WebPath × List String) × Option PyErr
  | .nil => (([], []), none)
  | .cons t rest =>
    match walkEntry acc recurse path t with
    | (r, some e) => (r, some e)
    | (r, none) =>
      let b := walkAux acc recurse path rest
      ((r.1 ++ b.1.1, r.2 ++ b.1.2), b.2)
end

/-- `SFTPHandler._walk(path, recurse)` on a root whose single flat listing
holds `entries`: one `listdir_attr(path)` call, then the loop — which
raises `NameError` at the first entry of any nonempty listing. -/
def walkDir (acc : Accessor) (recurse : Bool) (path : PathSegs) (entries : FSForest) :
    (List WebPath × List String) × Option PyErr :=
  let a := walkAux acc recurse path entries
  ((a.1.1, posixOf path :: a.1.2), a.2)

/-- `SFTPHandler._remote_tree(path)`: exhaust the walk eagerly into a
TreeList.  `list(...)` propagates the exception of the generator, so the
capture succeeds only when the walk raised nothing (i.e. the root listing
is empty). -/
def remoteTree (acc : Accessor) (path : PathSegs) (entries : FSForest) :
    Except PyErr (TreeList WebPath) :=
  match walkDir acc true path entries with
  | (r, none) => .ok ⟨path, r.1⟩
  | (_, some e) => .error e

/-- The primitive calls a synchronization operation issues, in order. -/
inductive SyncAction where
  | putBytes (localpath remotepath : String)
  | setRemoteTimes (remotepath : String) (atime mtime : ℚ)
  | setLocalTimes (localpath : String) (atime mtime : ℚ)
  | statRemote (remotepath : String)
  | mkdir (remotepath : String)
  | remove (path : String)
  | rmdir (path : String)
deriving DecidableEq, Repr

/-- A Python `for x in seq:` loop whose body issues primitive calls and may
raise: accumulates the trace, stops at the first exception (earlier
iterations keep their effects). -/
def pyForList (body : α → List SyncAction × Option PyErr) : List α → List SyncAction × Option PyErr
  | [] => ([], none)
  | x :: xs =>
    match body x with
    | (as, some e) => (as, some e)
    | (as, none) =>
      let r := pyForList body xs
      (as ++ r.1, r.2)

/-- A `for` loop over a lazy `filter` object: the predicate runs lazily as
the loop advances, interleaved with the body. -/
def pyForFilter (pred : α → Except PyErr Bool) (body : α → List SyncAction × Option PyErr) :
    List α → List SyncAction × Option PyErr
  | [] => ([], none)
  | x :: xs =>
    match pred x with
    | .error e => ([], some e)
    | .ok false => pyForFilter pred body xs
    | .ok true =>
      match body x with
      | (as, some e) => (as, some e)
      | (as, none) =>
        let r := pyForFilter pred body xs
        (as ++ r.1, r.2)

/-- A `for` loop over a `PySeq`. -/
def pyForSeq (body : α → List SyncAction × Option PyErr) : PySeq α → List SyncAction × Option PyErr
  | .list xs => pyForList body xs
  | .filterObj p xs => pyForFilter p body xs

/-- SFTPHandler._rm_tree: remove every file, then remove the directories in
`reversed(tree.directories)`.  Since `tree.directories` is a `filter`
object, the `reversed` call raises `TypeError` after the file loop. -/
def rm_tree [PyPathLike α] (tree : TreeList α) : List SyncAction × Option PyErr :=
  match pyForSeq (fun rf => ([SyncAction.remove (PyPathLike.asPosix rf)], none)) tree.files with
  | (as, some e) => (as, some e)
  | (as, none) =>
    match pyReversed tree.directories with
    | .error e => (as, some e)
    | .ok ds =>
      let r := pyForList (fun rd => ([SyncAction.rmdir (PyPathLike.asPosix rd)], none)) ds
      (as ++ r.1, r.2)

/-- SFTPHandler.rm_r: capture the remote snapshot, run `_rm_tree`, then
remove the root itself when requested. -/
def rm_r (acc : Accessor) (remotepath : PathSegs) (entries : FSForest)
    (remove_root : Bool := false) : List SyncAction × Option PyErr :=
  match remoteTree acc remotepath entries with
  | .error e => ([], some e)
  | .ok tree =>
    match rm_tree tree with
    | (as, some e) => (as, some e)
    | (as, none) =>
      if remove_root then (as ++ [SyncAction.rmdir (posixOf remotepath)], none)
      else (as, none)

/-- SFTPHandler.isdir: `self.Path(remotepath).is_dir()` inside
`try ... except IOError: return False` — every `IOError` (not only
not-found) is swallowed into `False`; non-IO exceptions propagate. -/
def SFTPHandler.isdir (acc : Accessor) (remotepath : String) : Except PyErr Bool :=
  match WebPath.is_dir { path := pathSegs remotepath, accessor := acc, cachedStat := none } with
  | .ok b => .ok b
  | .error e => if e.isIOError then .ok false else .error e

/-- The collaborators a put operation talks to: the remote stat primitive,
`os.stat`, and the attributes the byte-level transfer call returns. -/
structure SFTPEnv where
  acc : Accessor
  localStat : String → SFTPAttributes
  transferAttrs : String → String → SFTPAttributes

/-- SFTPHandler._copy_local_time: `os.stat(localpath)` then
`self.utime(remotepath, (st_atime, st_mtime))`. -/
def copy_local_time (env : SFTPEnv) (localpath remotepath : String) : List SyncAction :=
  [SyncAction.setRemoteTimes remotepath (env.localStat localpath).st_atime
    (env.localStat localpath).st_mtime]

/-- SFTPHandler._copy_remote_time: `self.stat(remotepath)` then
`os.utime(localpath, (st_atime, st_mtime))` — remote times flow onto the
local node. -/
def copy_remote_time (env : SFTPEnv) (localpath remotepath : String) :
    List SyncAction × Option PyErr :=
  match env.acc.statFn remotepath with
  | .ok st => ([SyncAction.statRemote remotepath,
                SyncAction.setLocalTimes localpath st.st_atime st.st_mtime], none)
  | .error e => ([SyncAction.statRemote remotepath], some e)

/-- SFTPHandler.put: the byte-level transfer, then, when `preserve_mtime`
is set, copy the local times onto the remote node and re-fetch the remote
attributes (the attributes returned by the transfer itself are stale). -/
def SFTPHandler.put (env : SFTPEnv) (localpath remotepath : String)
    (preserve_mtime : Bool := false) : List SyncAction × Except PyErr SFTPAttributes :=
  if preserve_mtime then
    ([SyncAction.putBytes localpath remotepath] ++
       copy_local_time env localpath remotepath ++
       [SyncAction.statRemote remotepath],
     env.acc.statFn remotepath)
  else
    ([SyncAction.putBytes localpath remotepath], .ok (env.transferAttrs localpath remotepath))

/-- SFTPHandler._put_tree: for each directory of the tree, map it under
`remotepath`, skip the root mapping, create it when `isdir` denies it, and
when `preserve_mtime` is set call `_copy_remote_time(ld, rd)`; then for
each file, `self.put(lf, rf, preserve_mtime=preserve_mtime)`. -/
def put_tree [PyPathLike α] (env : SFTPEnv) (tree : TreeList α) (remotepath : PathSegs)
    (preserve_mtime : Bool) : List SyncAction × Option PyErr :=
  let dirBody := fun ld =>
    match PyPathLike.relativeTo ld tree.root with
    | .error e => (([] : List SyncAction), some e)
    | .ok rel =>
      let rd := posixOf (remotepath ++ rel)
      if rd = (".") then ([], none)
      else
        match SFTPHandler.isdir env.acc rd with
        | .error e => ([], some e)
        | .ok b =>
          let mk := if b then [] else [SyncAction.mkdir rd]
          if preserve_mtime then
            let c := copy_remote_time env (PyPathLike.asPosix ld) rd
            (mk ++ c.1, c.2)
          else (mk, none)
  match pyForSeq dirBody tree.directories with
  | (as, some e) => (as, some e)
  | (as, none) =>
    let fileBody := fun lf =>
      match PyPathLike.relativeTo lf tree.root with
      | .error e => (([] : List SyncAction), some e)
      | .ok rel =>
        let rf := posixOf (remotepath ++ rel)
        let pr := SFTPHandler.put env (PyPathLike.asPosix lf) rf preserve_mtime
        (pr.1, match pr.2 with | .ok _ => none | .error e => some e)
    let r := pyForSeq fileBody tree.files
    (as ++ r.1, r.2)

/-- SFTPHandler.put_r: capture the local snapshot (taken here as the
argument, since the local recursive listing is an external collaborator)
and run `_put_tree`; `preserve_mtime` defaults to `False`. -/
def SFTPHandler.put_r (env : SFTPEnv) (tree : TreeList LocalPath) (remotepath : PathSegs)
    (preserve_mtime : Bool := false) : List SyncAction × Option PyErr :=
  put_tree env tree remotepath preserve_mtime

/-- SFTPHandler.put_diff: capture both snapshots, compute
`loc_tree.mod(rem_tree)`, and run the same `_put_tree` over the result;
`preserve_mtime` defaults to `True`. -/
def SFTPHandler.put_diff (env : SFTPEnv) (loc_tree : TreeList LocalPath)
    (rem_tree : TreeList WebPath) (remotepath : PathSegs)
    (preserve_mtime : Bool := true) : List SyncAction × Option PyErr :=
  match loc_tree.mod rem_tree with
  | .error e => ([], some e)
  | .ok tree => put_tree env tree remotepath preserve_mtime

/-- UTF-8 encoding of a string as a byte list (`str.encode("utf-8")`). -/
def utf8Encode (s : String) : List Nat := s.toUTF8.toList.map (fun b => b.toNat)

/-- UTF-8 decoding of a byte list (`bytes.decode("utf-8")`), when valid. -/
def utf8Decode (bs : List Nat) : Option String :=
  String.fromUTF8? ⟨⟨bs.map (fun n => UInt8.ofNat n)⟩⟩

/-- `str.encode(encoding)`: `TypeError` when the encoding is `None`,
a lookup failure for codecs this model does not carry. -/
def pyEncode (enc : Option String) (s : String) : Except PyErr (List Nat) :=
  match enc with
  | none => .error .typeError
  | some e => if e = ("utf-8") then .ok (utf8Encode s) else .error .lookupError

/-- `bytes.decode(encoding)`: `TypeError` on `None`, strict decode errors
surface as `UnicodeDecodeError`. -/
def pyDecode (enc : Option String) (bs : List Nat) : Except PyErr String :=
  match enc with
  | none => .error .typeError
  | some e =>
    if e = ("utf-8") then
      match utf8Decode bs with
      | some s => .ok s
      | none => .error .unicodeDecodeError
    else .error .lookupError

/-- The values a stream call takes or returns: Python `bytes` or `str`. -/
inductive PyData where
  | bytes : List Nat → PyData
  | str : String → PyData
deriving DecidableEq, Repr

/-- The byte contents of the underlying remote file. -/
structure RemoteFile where
  data : List Nat
deriving DecidableEq, Repr

/-- server.FileHandler: wraps the opened byte stream with the text
configuration.  `_is_binary` is derived once from the open flags — paramiko
sets `FLAG_BINARY` on the stream exactly when the mode string contains a
`b` — and is not re-derived per call. -/
structure FileHandler where
  isBinary : Bool
  encoding : Option String
  errors : Option String
  newline : Option String
deriving DecidableEq, Repr

/-- SFTPHandler.open: open the underlying stream with the mode string and
wrap it in a `FileHandler` carrying the text configuration. -/
def SFTPHandler.openFile (mode : String) (encoding errors newline : Option String) :
    FileHandler :=
  { isBinary := mode.data.contains 'b', encoding := encoding,
    errors := errors, newline := newline }

/-- FileHandler.read: read raw bytes from the stream; binary streams return
them unchanged, text streams decode with the configured encoding. -/
def FileHandler.read (fh : FileHandler) (f : RemoteFile) : Except PyErr PyData :=
  let text := f.data
  if fh.isBinary then .ok (.bytes text)
  else (pyDecode fh.encoding text).map PyData.str

/-- FileHandler.write: binary streams pass bytes through unchanged; text
streams encode the string with the configured encoding before writing.
Writing a value of the wrong runtime type raises. -/
def FileHandler.write (fh : FileHandler) (data : PyData) (f : RemoteFile) :
    Except PyErr RemoteFile :=
  if fh.isBinary then
    match data with
    | .bytes bs => .ok ⟨f.data ++ bs⟩
    | .str _ => .error .typeError
  else
    match data with
    | .str s => (pyEncode fh.encoding s).map (fun bs => ⟨f.data ++ bs⟩)
    | .bytes _ => .error .attributeError

/-- paramiko open flag constants used by WebPath.touch. -/
def SFTP_FLAG_WRITE : Nat := 2
/-- paramiko open flag constants used by WebPath.touch. -/
def SFTP_FLAG_CREATE : Nat := 8
/-- paramiko open flag constants used by WebPath.touch. -/
def SFTP_FLAG_EXCL : Nat := 32

/-- WebPath.open: `self._reset_stat()` first, then delegate to the
accessor's open, which builds the stream adapter. -/
def WebPath.openOp (p : WebPath) (mode : String) (encoding errors newline : Option String) :
    WebPath × FileHandler :=
  (p.reset_stat, SFTPHandler.openFile mode encoding errors newline)

/-- WebPath.mkdir: reset the stat cache, then the backend mkdir. -/
def WebPath.mkdirOp (p : WebPath) : WebPath × SyncAction :=
  (p.reset_stat, SyncAction.mkdir p.as_posix)

/-- WebPath.rmdir: reset the stat cache, then the backend rmdir. -/
def WebPath.rmdirOp (p : WebPath) : WebPath × SyncAction :=
  (p.reset_stat, SyncAction.rmdir p.as_posix)

/-- WebPath.unlink: reset the stat cache, then the backend remove. -/
def WebPath.unlinkOp (p : WebPath) : WebPath × SyncAction :=
  (p.reset_stat, SyncAction.remove p.as_posix)

/-- WebPath.touch: reset the stat cache, then emulate touch by an open
request with CREATE|WRITE flags (plus EXCL unless `exist_ok`) followed by a
close of the returned handle. -/
def WebPath.touchOp (p : WebPath) (exist_ok : Bool := true) : WebPath × List (String × Nat) :=
  let flags := SFTP_FLAG_CREATE ||| SFTP_FLAG_WRITE
  let flags := if exist_ok then flags else flags ||| SFTP_FLAG_EXCL
  (p.reset_stat, [(p.as_posix, flags)])

/-- Mode 0o40755: a directory. -/
def dirMode : Nat := 16877
/-- Mode 0o100644: a regular file. -/
def fileMode : Nat := 33188

/-- Attributes of a remote directory node used in the concrete scenarios. -/
def dirAttrs : SFTPAttributes := { st_mode := dirMode, st_size := 4096, st_atime := 1000, st_mtime := 1000 }
/-- Attributes of a remote file node used in the concrete scenarios. -/
def fileAttrs : SFTPAttributes := { st_mode := fileMode, st_size := 10, st_atime := 2000, st_mtime := 2000 }
/-- Local file attributes with a float (sub-second) mtime 300.5. -/
def localFileAttrs : SFTPAttributes := { st_mode := fileMode, st_size := 10, st_atime := 300, st_mtime := mkRat 601 2 }
/-- Local file attributes with float mtime 1000.5, for the diff/mod scenario. -/
def localSnapAttrs : SFTPAttributes := { st_mode := fileMode, st_size := 10, st_atime := 1000, st_mtime := mkRat 2001 2 }

/-- A local snapshot with root `r` holding the single file `r/a.txt`. -/
def exLocalTree : TreeList LocalPath := ⟨["r"], [⟨["r", "a.txt"], localSnapAttrs⟩]⟩

/-- An accessor that is never consulted in the snapshot scenarios (every
handle there carries a cached stat): any stat reports not-found. -/
def nfAcc : Accessor := ⟨fun _ => .error .fileNotFound⟩

/-- An accessor on which every stat is denied. -/
def permAcc : Accessor := ⟨fun _ => .error .permissionDenied⟩

/-- The remote listing of root `d` in the deletion scenario: a directory
`e` containing the single file `f.txt` — i.e. the tree
d/, d/e/, d/e/f.txt. -/
def exEntries : FSForest :=
  .cons (FSTree.node ("e") dirAttrs (.cons (FSTree.node ("f.txt") fileAttrs .nil) .nil)) .nil

/-- Remote stats for the upload scenario: `rem/sub` is an existing
directory, `rem/a.txt` an existing file, everything else absent. -/
def exPutAcc : Accessor :=
  ⟨fun s =>
    if s = ("rem/sub") then .ok dirAttrs
    else if s = ("rem/a.txt") then .ok fileAttrs
    else .error .fileNotFound⟩

/-- Environment for the upload scenario. -/
def exPutEnv : SFTPEnv :=
  { acc := exPutAcc, localStat := fun _ => localFileAttrs,
    transferAttrs := fun _ _ => fileAttrs }

/-- The local snapshot for the upload scenario: under root `loc`, a
directory `loc/sub` and a file `loc/a.txt`. -/
def exPutTree : TreeList LocalPath :=
  ⟨["loc"], [⟨["loc", "sub"], dirAttrs⟩, ⟨["loc", "a.txt"], localFileAttrs⟩]⟩

/-- C1: the claim states that `A.diff(B)` contains exactly the handles of A
whose relative path is absent from B, and that `A.diff(A)` is empty.  The
code instead uses `map` where a `filter` was intended, so the returned
snapshot holds the boolean membership-test results: on a snapshot A with
one file, `A.diff(A)` is a one-element list holding `False`, not an empty
list of handles. -/
theorem diff_maps_booleans_instead_of_filtering :
    exLocalTree.diff exLocalTree = .ok ⟨["r"], [false]⟩ := rfl

/-- C2: same evaluation for `mod`: on a snapshot A with one file (float
mtime 1000.5, key truncated to 1000), `A.mod(A)` is the one-element boolean
list `[False]`, not an empty snapshot of handles. -/
theorem mod_maps_booleans_instead_of_filtering :
    exLocalTree.mod exLocalTree = .ok ⟨["r"], [false]⟩ := rfl

/-- C3: the claim states that on the remote tree d/, d/e/, d/e/f.txt the
removal order is f.txt, then d/e/, then d/.  In fact the capture
`_remote_tree('d')` raises `NameError` at the first listing entry — the
unbound name `Path` in `WebPath.from_attr` — so `rm_r` aborts before
removing anything at all. -/
theorem rm_r_raises_nameerror_before_removing_anything :
    rm_r nfAcc ["d"] exEntries true = ([], some PyErr.nameError) := rfl

/-- C4: uploading the local tree loc/sub, loc/a.txt with
`preserve_mtime=True`: the file a.txt gets the claimed treatment (transfer,
then remote times set from the local stat with mtime 300.5, then a re-fetch
of the remote attributes), but for the directory `sub` the code calls
`_copy_remote_time(ld, rd)`, which stats the remote directory and sets the
LOCAL directory times from it — the reverse of the claimed direction. -/
theorem put_r_copies_remote_times_onto_local_directory :
    SFTPHandler.put_r exPutEnv exPutTree ["rem"] true =
      ([SyncAction.statRemote ("rem/sub"),
        SyncAction.setLocalTimes ("loc/sub") 1000 1000,
        SyncAction.putBytes ("loc/a.txt") ("rem/a.txt"),
        SyncAction.setRemoteTimes ("rem/a.txt") 300 (mkRat 601 2),
        SyncAction.statRemote ("rem/a.txt")], none) := rfl

/-- C6 counterexample: the claim says failures other than not-found
(permission, I/O) propagate unchanged out of the primitives; but
`SFTPHandler.isdir` catches every `IOError`, so on an accessor whose stat
is denied with PermissionDenied it returns `False` instead of
propagating the error. -/
theorem isdir_swallows_permission_error :
    permAcc.statFn ("p") = .error .permissionDenied ∧
      SFTPHandler.isdir permAcc ("p") = .ok false := ⟨rfl, rfl⟩

/-- C5: the claim states the walk lazily yields a depth-first pre-order
sequence of path handles, using the flat listing primitive once per
directory.  In fact, on any root whose listing is nonempty, the walk
performs the single flat listing of the root and then raises `NameError`
at its first entry — `WebPath.from_attr` evaluates the name `Path`, which
webpath.py never imports — yielding no handle at all, with recursion
enabled or disabled alike; only the walk of a root with an empty listing
completes, yielding the empty sequence. -/
theorem walk_raises_nameerror_on_first_entry :
    walkDir nfAcc true ["d"] exEntries = (([], [("d")]), some PyErr.nameError) ∧
    walkDir nfAcc false ["d"] exEntries = (([], [("d")]), some PyErr.nameError) ∧
    walkDir nfAcc true ["d"] FSForest.nil = (([], [("d")]), none) :=
  ⟨rfl, rfl, rfl⟩

/-- C6 (amended): when the stat primitive fails, `WebPath.is_dir` and
`WebPath.is_file` swallow exactly the not-found failure (returning false)
and propagate every other failure unchanged; the handler-level
`SFTPHandler.isdir`, however, swallows every `IOError` — not-found,
permission, other I/O — into `False`, and propagates only non-IO
exceptions. -/
theorem classification_error_policy :
    ∀ (acc : Accessor) (rp : String) (e : PyErr),
      acc.statFn (posixOf (pathSegs rp)) = .error e →
      ((e = .fileNotFound →
          (WebPath.mk (pathSegs rp) acc none).is_dir = .ok false ∧
          (WebPath.mk (pathSegs rp) acc none).is_file = .ok false) ∧
       (e ≠ .fileNotFound →
          (WebPath.mk (pathSegs rp) acc none).is_dir = .error e ∧
          (WebPath.mk (pathSegs rp) acc none).is_file = .error e) ∧
       (e.isIOError = true → SFTPHandler.isdir acc rp = .ok false) ∧
       (e.isIOError = false → SFTPHandler.isdir acc rp = .error e)) := by
  intro acc rp e h
  have hs : (WebPath.mk (pathSegs rp) acc none).stat = .error e := by
    simpa [WebPath.stat, WebPath.as_posix] using h
  refine ⟨?_, ?_, ?_, ?_⟩ <;> intro he
  · subst he
    simp [WebPath.is_dir, WebPath.is_file, hs]
  · cases e <;> simp_all [WebPath.is_dir, WebPath.is_file]
  · cases e <;> simp_all [SFTPHandler.isdir, WebPath.is_dir, PyErr.isIOError]
  · cases e <;> simp_all [SFTPHandler.isdir, WebPath.is_dir, PyErr.isIOError]

/-- Witness for the amended C6 theorem at a concrete accessor whose stat
reports not-found. -/
theorem classification_error_policy_witness :
    SFTPHandler.isdir nfAcc ("p") = .ok false :=
  (classification_error_policy nfAcc ("p") .fileNotFound rfl).2.2.1 rfl

/-- C7: every mutating operation (open, mkdir, rmdir, touch, unlink)
returns a handle with the cached stat cleared — so a subsequent stat goes
to the backend — while delegating to the backend primitive at the handle
path; and a child handle obtained by path-join starts with no cached
metadata and keeps the same backend accessor. -/
theorem mutators_clear_cached_stat_and_child_has_no_cache :
    ∀ (p : WebPath) (mode : String) (enc err nl : Option String) (eo : Bool) (name : String),
      ((p.openOp mode enc err nl).1.cachedStat = none ∧
        (p.openOp mode enc err nl).1.stat = p.accessor.statFn p.as_posix) ∧
      (p.mkdirOp.1.cachedStat = none ∧ p.mkdirOp.2 = SyncAction.mkdir p.as_posix ∧
        p.mkdirOp.1.stat = p.accessor.statFn p.as_posix) ∧
      (p.rmdirOp.1.cachedStat = none ∧ p.rmdirOp.2 = SyncAction.rmdir p.as_posix ∧
        p.rmdirOp.1.stat = p.accessor.statFn p.as_posix) ∧
      ((p.touchOp eo).1.cachedStat = none ∧
        (p.touchOp eo).1.stat = p.accessor.statFn p.as_posix) ∧
      (p.unlinkOp.1.cachedStat = none ∧ p.unlinkOp.2 = SyncAction.remove p.as_posix ∧
        p.unlinkOp.1.stat = p.accessor.statFn p.as_posix) ∧
      ((p.child name).cachedStat = none ∧ (p.child name).accessor = p.accessor ∧
        (p.child name).path = p.path ++ [name]) :=
  fun _ _ _ _ _ _ _ =>
    ⟨⟨rfl, rfl⟩, ⟨rfl, rfl, rfl⟩, ⟨rfl, rfl, rfl⟩, ⟨rfl, rfl⟩, ⟨rfl, rfl, rfl⟩,
      rfl, rfl, rfl⟩

/-- C8: `put_diff` preserves modification times by default while `put_r`
does not, and both delegate to the same directory-then-file upload
procedure `_put_tree` (for `put_diff`, over the tree produced by
`loc_tree.mod(rem_tree)`). -/
theorem put_diff_defaults_preserve_and_shares_put_tree :
    (∀ (env : SFTPEnv) (lt : TreeList LocalPath) (rp : PathSegs),
        SFTPHandler.put_r env lt rp = put_tree env lt rp false) ∧
    (∀ (env : SFTPEnv) (lt : TreeList LocalPath) (rt : TreeList WebPath) (rp : PathSegs),
        SFTPHandler.put_diff env lt rt rp =
          match lt.mod rt with
          | .error e => ([], some e)
          | .ok tree => put_tree env tree rp true) :=
  ⟨fun _ _ _ => rfl, fun _ _ _ _ => rfl⟩

/-- C9: writing a string through a text-mode utf-8 stream and reading the
file back through a binary-mode stream yields exactly the UTF-8 bytes of
the string; binary-mode reads and writes pass bytes through unchanged,
text-mode writes encode and text-mode reads decode with the configured
encoding. -/
theorem stream_text_binary_roundtrip :
    ∀ (s : String) (f : RemoteFile) (bs : List Nat) (enc : Option String),
      ((FileHandler.write (SFTPHandler.openFile ("w") (some ("utf-8")) none none)
          (PyData.str s) ⟨[]⟩).bind
        (FileHandler.read (SFTPHandler.openFile ("rb") none none none))
          = .ok (.bytes (utf8Encode s))) ∧
      (FileHandler.read (SFTPHandler.openFile ("rb") none none none) f
          = .ok (.bytes f.data)) ∧
      (FileHandler.write (SFTPHandler.openFile ("wb") none none none) (PyData.bytes bs) f
          = .ok ⟨f.data ++ bs⟩) ∧
      (FileHandler.write (SFTPHandler.openFile ("w") enc none none) (PyData.str s) f
          = (pyEncode enc s).map (fun b => ⟨f.data ++ b⟩)) ∧
      (FileHandler.read (SFTPHandler.openFile ("r") enc none none) f
          = (pyDecode enc f.data).map PyData.str) :=
  fun _ _ _ _ => ⟨rfl, rfl, rfl, rfl, rfl⟩

theorem exceptFilter_const_false (pred : α → Except PyErr Bool)
    (h : ∀ x, pred x = .ok false) : ∀ ps : List α, exceptFilter pred ps = .ok [] := by
  intro ps
  induction ps with
  | nil => rfl
  | cons x xs ih =>
    simp only [exceptFilter, h x, ih]
    rfl

/-- C10: the `unknowns` view of any snapshot of path handles yields no
elements: because `p.is_dir` is tested without being called, the bound
method object is truthy, the disjunction short-circuits and the filter
predicate is constantly false — even for handles that are neither
directories nor regular files. -/
theorem unknowns_always_empty :
    ∀ (t : TreeList WebPath), t.unknowns.toListE = .ok [] := by
  intro t
  exact exceptFilter_const_false _ (fun _ => rfl) t.paths
